import Mathlib

/-!
Shallow embedding of the claude-accounts credential vault (src/db.py) together
with the two launch paths that consume it (src/cli.py `cmd_launch`,
src/server.py `handle_start_terminal`).  Python dicts are modelled as
association lists, the SQLite `accounts` table as a `List Account`, the Fernet
cipher as an abstract pair of functions, the network as an oracle of responses
indexed by the number of requests sent so far, and exceptions as explicit
`Except` results.  Epoch-millisecond clocks are passed explicitly as `Nat`.
-/

/-- Model of the `cryptography.fernet.Fernet` object built by `_get_cipher` in
db.py: `enc` is `Fernet.encrypt` (bytes round-trips elided), `dec` is
`Fernet.decrypt`, where `none` models the `InvalidToken` exception raised on a
token that is malformed or was produced under a different key. -/
structure Fernet where
  enc : String → String
  dec : String → Option String

/-- Function `_encrypt` of db.py: empty values are stored as the empty string,
anything else is Fernet-encrypted. -/
def _encrypt (F : Fernet) (value : String) : String :=
  if value = "" then "" else F.enc value

/-- Function `_decrypt` of db.py: the empty ciphertext decrypts to the empty
string; otherwise Fernet decryption runs, and `none` models the `InvalidToken`
exception escaping `_decrypt`. -/
def _decrypt (F : Fernet) (token : String) : Option String :=
  if token = "" then some "" else F.dec token

/-- One row of the `accounts` table created by `init_db` in db.py.  The SQL
`datetime('now')` strings are modelled as abstract `Nat` ticks; `lastUsed`
is `none` for SQL NULL. -/
structure Account where
  id : String
  name : String
  authType : String
  apiKeyEnc : String
  accessTokenEnc : String
  refreshTokenEnc : String
  expiresAt : Nat
  lastUsed : Option Nat
deriving DecidableEq, Repr

/-- Query `SELECT * FROM accounts WHERE id = ?` on the model store. -/
def findAccount : List Account → String → Option Account
  | [], _ => none
  | a :: rest, accountId =>
    if a.id == accountId then some a else findAccount rest accountId

/-- Shape of every `UPDATE accounts ... WHERE id = ?` statement in db.py:
rewrite the rows whose id matches, leave the rest untouched. -/
def mapAccount (store : List Account) (accountId : String)
    (f : Account → Account) : List Account :=
  store.map (fun a => if a.id == accountId then f a else a)

/-- Statement `UPDATE accounts SET last_used = datetime('now') WHERE id = ?`
executed at the top of `get_launch_env`. -/
def setLastUsed (store : List Account) (accountId : String) (now : Nat) :
    List Account :=
  mapAccount store accountId (fun a => { a with lastUsed := some now })

/-- Keyword arguments accepted by `update_account` in db.py; `none` models an
absent keyword. -/
structure UpdateArgs where
  name : Option String := none
  authType : Option String := none
  apiKey : Option String := none
  accessToken : Option String := none
  refreshToken : Option String := none
  expiresAt : Option Nat := none

/-- Merge of the `fields` dict built inside `update_account`: supplied
credential kwargs are re-encrypted, everything else keeps the stored value.
The row's `last_used` and `created_at` columns are not part of the UPDATE. -/
def applyUpdate (F : Fernet) (kw : UpdateArgs) (a : Account) : Account :=
  { a with
    name := kw.name.getD a.name,
    authType := kw.authType.getD a.authType,
    apiKeyEnc := (match kw.apiKey with
      | some v => _encrypt F v
      | none => a.apiKeyEnc),
    accessTokenEnc := (match kw.accessToken with
      | some v => _encrypt F v
      | none => a.accessTokenEnc),
    refreshTokenEnc := (match kw.refreshToken with
      | some v => _encrypt F v
      | none => a.refreshTokenEnc),
    expiresAt := kw.expiresAt.getD a.expiresAt }

/-- Function `update_account` of db.py: raises `ValueError` when the id is
absent, otherwise runs the UPDATE statement above. -/
def update_account (F : Fernet) (store : List Account) (accountId : String)
    (kw : UpdateArgs) : Except String (List Account) :=
  match findAccount store accountId with
  | none => .error ("Account " ++ accountId ++ " not found")
  | some _ => .ok (mapAccount store accountId (applyUpdate F kw))

/-- Function `add_account` of db.py: the INSERT raises `IntegrityError` when
the primary-key id or the UNIQUE name already exists. -/
def add_account (F : Fernet) (store : List Account)
    (accountId nm authType apiKey accessToken refreshToken : String)
    (expiresAt : Nat) : Except String (List Account) :=
  if store.any (fun a => a.id == accountId || a.name == nm) then
    .error "IntegrityError"
  else
    let row : Account :=
      { id := accountId, name := nm, authType := authType,
        apiKeyEnc := _encrypt F apiKey,
        accessTokenEnc := _encrypt F accessToken,
        refreshTokenEnc := _encrypt F refreshToken,
        expiresAt := expiresAt, lastUsed := none }
    .ok (store ++ [row])

/-- Parsed JSON body of a token-endpoint response, with the `data.get`
defaults used in `refresh_oauth_token` (`""`, `""`, `0`). -/
structure TokenJson where
  accessToken : String
  refreshToken : String
  expiresIn : Nat
deriving DecidableEq, Repr

/-- Outcome of one `requests.post` call to the token endpoint: either a
`requests.RequestException` or an HTTP response with its status code, raw
text, and parsed JSON body. -/
inductive NetResp where
  | netError (msg : String)
  | http (status : Nat) (body : String) (json : TokenJson)
deriving DecidableEq, Repr

/-- Model of the token endpoint plus a request log: `oracle n` is the network
outcome of the `n`-th request overall, `count` the number of requests sent so
far, and `sent` the refresh tokens posted so far (one entry per request). -/
structure NetState where
  oracle : Nat → NetResp
  count : Nat
  sent : List String

/-- Sending one refresh-token grant request (the single `requests.post` in
`refresh_oauth_token`). -/
def postRefresh (net : NetState) (refreshToken : String) : NetResp × NetState :=
  (net.oracle net.count,
   { net with count := net.count + 1, sent := net.sent ++ [refreshToken] })

/-- Exceptions raised by `refresh_oauth_token` in db.py.  `connectionError`
models the `ConnectionError` re-raise of a `RequestException`
(spec: RefreshUnreachable); `rejected` the `ValueError` raised on a non-200
status, carrying the truncated body (spec: RefreshRejected);
`corruptRefreshToken` the Fernet `InvalidToken` escaping from `_decrypt`. -/
inductive RefreshError where
  | accountNotFound
  | notOauth
  | noRefreshToken
  | corruptRefreshToken
  | connectionError (msg : String)
  | rejected (status : Nat) (detail : String)
  | missingAccessToken
deriving DecidableEq, Repr

/-- Return dict of a successful `refresh_oauth_token` call (the token preview
keeps only the last six characters of the new access token). -/
structure RefreshResult where
  tokenSuffix : String
  expiresInMin : Option Nat
deriving DecidableEq, Repr

/-- Computation `resp.text[:200] if resp.text else f"HTTP {status}"` in the
non-200 branch of `refresh_oauth_token`. -/
def rejectDetail (status : Nat) (body : String) : String :=
  if body = "" then "HTTP " ++ toString status else body.take 200

/-- Function `refresh_oauth_token` of db.py with the store, the clock (epoch
milliseconds) and the network passed explicitly.  Returns the store and
network after the call plus the outcome.  The write-back to the external
credentials file (`_sync_credentials_file`) is pure file content and is
modelled separately by `_sync_credentials_file`. -/
def refresh_oauth_token (F : Fernet) (store : List Account) (now : Nat)
    (net : NetState) (accountId : String) :
    List Account × NetState × Except RefreshError RefreshResult :=
  match findAccount store accountId with
  | none => (store, net, .error .accountNotFound)
  | some row =>
    if row.authType ≠ "oauth" then (store, net, .error .notOauth)
    else
      match _decrypt F row.refreshTokenEnc with
      | none => (store, net, .error .corruptRefreshToken)
      | some refreshToken =>
        if refreshToken = "" then (store, net, .error .noRefreshToken)
        else
          match postRefresh net refreshToken with
          | (.netError msg, net') =>
            (store, net', .error (.connectionError msg))
          | (.http status body json, net') =>
            if status ≠ 200 then
              (store, net', .error (.rejected status (rejectDetail status body)))
            else if json.accessToken = "" then
              (store, net', .error .missingAccessToken)
            else
              let newExpiresAt : Nat :=
                if json.expiresIn ≠ 0 then now + json.expiresIn * 1000 else 0
              let store' :=
                match update_account F store accountId
                  { accessToken := some json.accessToken,
                    refreshToken := some json.refreshToken,
                    expiresAt := some newExpiresAt } with
                | .ok s => s
                | .error _ => store
              (store', net',
               .ok { tokenSuffix := json.accessToken.takeRight 6,
                     expiresInMin :=
                       if json.expiresIn ≠ 0 then some (json.expiresIn / 60)
                       else none })

/-- Environment-variable dict returned by `get_launch_env`: each return site
builds a dict with exactly one key. -/
inductive LaunchEnv where
  | apiKey (key : String)
  | oauthToken (token : String)
deriving DecidableEq, Repr

/-- Exceptions escaping `get_launch_env`.  All constructors except
`corruptCredential` model `ValueError`s; `corruptCredential` models the Fernet
`InvalidToken` exception escaping `get_launch_env` undegraded (its callers in
cli.py / server.py catch only `ValueError`). -/
inductive LaunchError where
  | accountNotFound
  | missingApiKey
  | missingOauthToken
  | expiredNoRefresh
  | refreshFailed (nm : String)
  | corruptCredential
deriving DecidableEq, Repr

/-- Intermediate outcome of the read-and-check part of `get_launch_env`. -/
inductive CheckOutcome where
  | fail (e : LaunchError)
  | ready (env : LaunchEnv)
  | refreshNeeded (nm : String)
deriving DecidableEq, Repr

/-- Lines 179-222 of db.py `get_launch_env` up to (but not including) the
auto-refresh call: row lookup, the `last_used` update, decryption, the
missing-credential checks and the expiry check (`now_ms > expires_at`,
strict). -/
def launchCheck (F : Fernet) (store : List Account) (now : Nat)
    (accountId : String) : List Account × CheckOutcome :=
  match findAccount store accountId with
  | none => (store, .fail .accountNotFound)
  | some row =>
    let store' := setLastUsed store accountId now
    if row.authType = "api_key" then
      match _decrypt F row.apiKeyEnc with
      | none => (store', .fail .corruptCredential)
      | some apiKey =>
        if apiKey = "" then (store', .fail .missingApiKey)
        else (store', .ready (.apiKey apiKey))
    else
      match _decrypt F row.accessTokenEnc with
      | none => (store', .fail .corruptCredential)
      | some accessToken =>
        if accessToken = "" then (store', .fail .missingOauthToken)
        else if row.expiresAt > 0 then
          if now > row.expiresAt then
            if row.refreshTokenEnc ≠ "" then (store', .refreshNeeded row.name)
            else (store', .fail .expiredNoRefresh)
          else (store', .ready (.oauthToken accessToken))
        else (store', .ready (.oauthToken accessToken))

/-- Auto-refresh branch of `get_launch_env` (db.py lines 204-217): call
`refresh_oauth_token`, re-read the stored access token and decrypt it; any
exception out of that block is caught and re-raised as a `ValueError`. -/
def launchFinishRefresh (F : Fernet) (store : List Account) (now : Nat)
    (net : NetState) (accountId nm : String) :
    List Account × NetState × Except LaunchError LaunchEnv :=
  match refresh_oauth_token F store now net accountId with
  | (store', net', .ok _) =>
    match findAccount store' accountId with
    | some a =>
      match _decrypt F a.accessTokenEnc with
      | some t => (store', net', .ok (.oauthToken t))
      | none => (store', net', .error (.refreshFailed nm))
    | none => (store', net', .error (.refreshFailed nm))
  | (store', net', .error _) => (store', net', .error (.refreshFailed nm))

/-- Function `get_launch_env` of db.py (the resolve-launch-credentials
operation): returns the store and network after the call plus either the
injected env pair or the exception raised. -/
def get_launch_env (F : Fernet) (store : List Account) (now : Nat)
    (net : NetState) (accountId : String) :
    List Account × NetState × Except LaunchError LaunchEnv :=
  match launchCheck F store now accountId with
  | (store', .fail e) => (store', net, .error e)
  | (store', .ready env) => (store', net, .ok env)
  | (store', .refreshNeeded nm) => launchFinishRefresh F store' now net accountId nm

/-- Return value of `get_token_status` in db.py. -/
inductive TokenStatus where
  | notFound
  | apiKeyStatus (ok : Bool)
  | needsLogin
  | expired (hasRefresh : Bool)
  | oauthOk (remainingMin : Option Nat) (hasRefresh : Bool)
deriving DecidableEq, Repr

/-- Function `get_token_status` of db.py: purely informational, reads one row
and the clock. -/
def get_token_status (store : List Account) (now : Nat) (accountId : String) :
    TokenStatus :=
  match findAccount store accountId with
  | none => .notFound
  | some row =>
    if row.authType = "api_key" then .apiKeyStatus (row.apiKeyEnc != "")
    else if row.accessTokenEnc = "" then .needsLogin
    else if row.expiresAt > 0 ∧ now > row.expiresAt then
      .expired (row.refreshTokenEnc != "")
    else
      .oauthOk (if row.expiresAt > 0 then some ((row.expiresAt - now) / 60000) else none)
        (row.refreshTokenEnc != "")

/-- Minimal JSON value model for the ExternalCredentialFile
(`~/.claude/.credentials.json`); objects are association lists in insertion
order, as Python dicts are. -/
inductive JVal where
  | null
  | bool (b : Bool)
  | num (n : Int)
  | str (s : String)
  | arr (xs : List JVal)
  | obj (fields : List (String × JVal))

/-- Dict read `data.get(k)` on a parsed JSON object. -/
def jLookup : List (String × JVal) → String → Option JVal
  | [], _ => none
  | p :: rest, k => if p.1 == k then some p.2 else jLookup rest k

/-- Dict write `data[k] = v` on a parsed JSON object: replaces the existing
key in place, otherwise appends (Python dict assignment semantics). -/
def jSet : List (String × JVal) → String → JVal → List (String × JVal)
  | [], k, v => [(k, v)]
  | p :: rest, k, v =>
    if p.1 == k then (k, v) :: rest else p :: jSet rest k v

/-- Read `d.get(k, "")` of a string field (non-string values are out of the
well-formed inputs this development evaluates and default to `""`). -/
def jGetStr (fields : List (String × JVal)) (k : String) : String :=
  match jLookup fields k with
  | some (.str s) => s
  | _ => ""

/-- Read `d.get(k, 0)` of a numeric field, clamped to `Nat` (all epoch
timestamps handled by the program are non-negative). -/
def jGetNat (fields : List (String × JVal)) (k : String) : Nat :=
  match jLookup fields k with
  | some (.num n) => n.toNat
  | _ => 0

/-- Read `data.get("claudeAiOauth", {})`. -/
def jGetObj (fields : List (String × JVal)) (k : String) :
    List (String × JVal) :=
  match jLookup fields k with
  | some (.obj fs) => fs
  | _ => []

/-- Object written under `claudeAiOauth` by `_sync_credentials_file`. -/
def oauthObj (accessToken refreshToken : String) (expiresAt : Nat) : JVal :=
  .obj [("accessToken", .str accessToken),
        ("refreshToken", .str refreshToken),
        ("expiresAt", .num expiresAt)]

/-- Content transformation performed by `_sync_credentials_file` in db.py on
the credentials file: the existing parsed document (`{}` when the file is
absent or unparseable) with the `claudeAiOauth` key overwritten by the
account's current tokens.  The atomic temp-file-and-rename I/O around it is
not modelled. -/
def _sync_credentials_file (data : List (String × JVal))
    (accessToken refreshToken : String) (expiresAt : Nat) :
    List (String × JVal) :=
  jSet data "claudeAiOauth" (oauthObj accessToken refreshToken expiresAt)

/-- Exceptions raised by `capture_oauth_tokens`: `FileNotFoundError`, the
no-`accessToken` `ValueError`, and the `ValueError` propagated out of
`update_account` for an unknown id. -/
inductive CaptureError where
  | noCredentialFile
  | noAccessToken
  | accountNotFound
deriving DecidableEq, Repr

/-- Return dict of a successful `capture_oauth_tokens` call. -/
structure CaptureResult where
  tokenSuffix : String
  hasRefresh : Bool
  expiresInMin : Option Int
deriving DecidableEq, Repr

/-- Function `capture_oauth_tokens` of db.py; `file` is the parsed
ExternalCredentialFile, `none` when the file does not exist.  Note that the
function never checks the account's `auth_type`. -/
def capture_oauth_tokens (F : Fernet) (store : List Account) (now : Nat)
    (file : Option (List (String × JVal))) (accountId : String) :
    List Account × Except CaptureError CaptureResult :=
  match file with
  | none => (store, .error .noCredentialFile)
  | some data =>
    let oauth := jGetObj data "claudeAiOauth"
    let accessToken := jGetStr oauth "accessToken"
    let refreshToken := jGetStr oauth "refreshToken"
    let expiresAt := jGetNat oauth "expiresAt"
    if accessToken = "" then (store, .error .noAccessToken)
    else
      match update_account F store accountId
        { accessToken := some accessToken,
          refreshToken := some refreshToken,
          expiresAt := some expiresAt } with
      | .error _ => (store, .error .accountNotFound)
      | .ok store' =>
        let remaining : Option Int :=
          if expiresAt > 0 then some (Int.tdiv ((expiresAt : Int) - (now : Int)) 60000)
          else none
        (store', .ok { tokenSuffix := accessToken.takeRight 6,
                       hasRefresh := refreshToken != "",
                       expiresInMin := remaining })

/-- One entry of the list consumed by `import_accounts`, with the `get`
defaults of db.py. -/
structure ImportEntry where
  name : String := ""
  authType : String := "api_key"
  apiKey : String := ""
  accessToken : String := ""
  refreshToken : String := ""
  expiresAt : Nat := 0
deriving DecidableEq, Repr

/-- Function `import_accounts` of db.py.  Each entry is paired with the random
hex salt drawn for its id (`os.urandom(4).hex()`).  Entries whose stripped
name is empty or collides with an existing account are skipped; an
`IntegrityError` out of `add_account` (possible only on an id collision)
propagates, leaving the accounts committed so far.  Returns the final store
and the imported count (or the propagated error). -/
def import_accounts (F : Fernet) : List Account → List (String × ImportEntry) →
    List Account × Except String Nat
  | store, [] => (store, .ok 0)
  | store, (salt, e) :: rest =>
    if e.name.trim = "" ∨ store.any (fun a => a.name == e.name.trim) then
      import_accounts F store rest
    else
      match add_account F store ("acc_" ++ e.name.trim ++ "_" ++ salt)
        e.name.trim e.authType e.apiKey e.accessToken e.refreshToken
        e.expiresAt with
      | .error msg => (store, .error msg)
      | .ok store' =>
        match import_accounts F store' rest with
        | (s, .ok n) => (s, .ok (n + 1))
        | (s, .error msg) => (s, .error msg)

/-- Process environment, modelled as a finite-key map (Python dict semantics:
at most one value per variable name). -/
abbrev EnvMap := String → Option String

/-- Dict read `env.get(k)`. -/
def envGet (e : EnvMap) (k : String) : Option String := e k

/-- Dict write `env[k] = v`. -/
def envSet (e : EnvMap) (k v : String) : EnvMap :=
  fun q => if q = k then some v else e q

/-- Dict removal `env.pop(k, None)`. -/
def envPop (e : EnvMap) (k : String) : EnvMap :=
  fun q => if q = k then none else e q

/-- Dict write `env.setdefault(k, v)`: keep an existing value, else insert. -/
def envSetDefault (e : EnvMap) (k v : String) : EnvMap :=
  fun q => if q = k then some ((e k).getD v) else e q

/-- Child-environment construction of `cmd_launch` in cli.py (lines 195-203):
copy the caller's environment, apply `env.update(env_vars)` for the single
returned pair, then pop the conflicting identity variable. -/
def cliChildEnv (caller : EnvMap) (envVars : LaunchEnv) : EnvMap :=
  match envVars with
  | .apiKey k =>
    envPop (envSet caller "ANTHROPIC_API_KEY" k) "CLAUDE_CODE_OAUTH_TOKEN"
  | .oauthToken t =>
    envPop (envSet caller "CLAUDE_CODE_OAUTH_TOKEN" t) "ANTHROPIC_API_KEY"

/-- Child-environment construction of `handle_start_terminal` in server.py
(lines 481-489): same update-then-pop sequence as `cmd_launch`, followed by
`env.setdefault("TERM", "xterm-256color")`. -/
def serverChildEnv (caller : EnvMap) (envVars : LaunchEnv) : EnvMap :=
  match envVars with
  | .apiKey k =>
    envSetDefault
      (envPop (envSet caller "ANTHROPIC_API_KEY" k) "CLAUDE_CODE_OAUTH_TOKEN")
      "TERM" "xterm-256color"
  | .oauthToken t =>
    envSetDefault
      (envPop (envSet caller "CLAUDE_CODE_OAUTH_TOKEN" t) "ANTHROPIC_API_KEY")
      "TERM" "xterm-256color"

/-- Replacement of every `\x7b\x7d` hole in a character list by `arg`
(worker for `pyFormat`). -/
def replaceHoles (arg : List Char) : List Char → List Char
  | [] => []
  | [c] => [c]
  | c :: c2 :: rest =>
    if c = Char.ofNat 123 ∧ c2 = Char.ofNat 125 then
      arg ++ replaceHoles arg rest
    else c :: replaceHoles arg (c2 :: rest)

/-- Python `template.format(arg)` for the single-hole templates used by
`_mask` (`"sk-ant-...\x7b\x7d"` and `"oat01-...\x7b\x7d"`). -/
def pyFormat (tpl arg : String) : String :=
  String.mk (replaceHoles arg.data tpl.data)

/-- Function `_mask` of db.py: empty ciphertext masks to the empty string, a
decryptable ciphertext shows its last six plaintext characters, and any
exception from `_decrypt` is caught and masked as `"***"`. -/
def _mask (F : Fernet) (encrypted : String) (template : String) : String :=
  if encrypted = "" then ""
  else
    match _decrypt F encrypted with
    | some val => pyFormat template (val.takeRight 6)
    | none => pyFormat template "***"

/-- Concrete cipher instance used to evaluate the model on closed inputs:
encryption prepends a marker character, decryption rejects any string that
does not carry the marker (as a real Fernet rejects foreign tokens). -/
def testFernet : Fernet :=
  { enc := fun s => String.mk ('G' :: s.data),
    dec := fun t =>
      match t.data with
      | 'G' :: rest => some (String.mk rest)
      | _ => none }

/-- Decidable equality of exception-or-value results, used to evaluate the
model on closed inputs. -/
instance {ε α : Type} [DecidableEq ε] [DecidableEq α] :
    DecidableEq (Except ε α) := fun x y =>
  match x, y with
  | .ok a, .ok b =>
    if h : a = b then isTrue (by rw [h])
    else isFalse (fun hc => h (by cases hc; rfl))
  | .error a, .error b =>
    if h : a = b then isTrue (by rw [h])
    else isFalse (fun hc => h (by cases hc; rfl))
  | .ok _, .error _ => isFalse (fun hc => Except.noConfusion hc)
  | .error _, .ok _ => isFalse (fun hc => Except.noConfusion hc)

/-- Auth-type separation invariant stated in the spec's data model: an ApiKey
account has empty OAuth ciphertext fields and an OAuth account has an empty
API-key ciphertext field. -/
def accountTypedB (a : Account) : Bool :=
  ((a.authType != "api_key") || (a.accessTokenEnc == "" && a.refreshTokenEnc == "")) &&
  ((a.authType != "oauth") || (a.apiKeyEnc == ""))

/-- The auth-type separation invariant over the whole store. -/
def storeTypedB (store : List Account) : Bool := store.all accountTypedB

/-- Concrete OAuth account fixture (id `a1`, name `per`) used to evaluate the
model on closed inputs. -/
def oauthAccount (accessTokenEnc refreshTokenEnc : String) (expiresAt : Nat) :
    Account :=
  { id := "a1", name := "per", authType := "oauth", apiKeyEnc := "",
    accessTokenEnc := accessTokenEnc, refreshTokenEnc := refreshTokenEnc,
    expiresAt := expiresAt, lastUsed := none }

/-- Concrete ApiKey account fixture (id `a1`, name `work`). -/
def apiKeyAccount (apiKeyEnc : String) : Account :=
  { id := "a1", name := "work", authType := "api_key", apiKeyEnc := apiKeyEnc,
    accessTokenEnc := "", refreshTokenEnc := "", expiresAt := 0,
    lastUsed := none }

/-- Token endpoint that always answers the same response; no requests sent
yet. -/
def constNet (r : NetResp) : NetState :=
  { oracle := fun _ => r, count := 0, sent := [] }

/-- Token endpoint scripted with a list of responses, answered in order; no
requests sent yet. -/
def seqNet (rs : List NetResp) : NetState :=
  { oracle := fun n => rs.getD n (.netError "out of scripted responses"),
    count := 0, sent := [] }

/-- Interleaved two-caller scenario, step 0: both callers target the same
expired OAuth account (expiry 1000, clock 2000) holding refresh token `R1`;
the endpoint would answer a first refresh with tokens `A2`/`R2` and a second
with `A3`/`R3`. -/
def c9store0 : List Account := [oauthAccount "GA1" "GR1" 1000]

/-- Scripted endpoint for the interleaved two-caller scenario. -/
def c9net0 : NetState :=
  seqNet [.http 200 "" { accessToken := "A2", refreshToken := "R2", expiresIn := 3600 },
          .http 200 "" { accessToken := "A3", refreshToken := "R3", expiresIn := 3600 }]

/-- Store after caller 1 has run the read-and-check prefix of
`get_launch_env`. -/
def c9s1 : List Account := (launchCheck testFernet c9store0 2000 "a1").1

/-- Store after caller 2 has also run the read-and-check prefix (before either
caller's refresh call: the interleaving the code permits, having no
per-account guard). -/
def c9s2 : List Account := (launchCheck testFernet c9s1 2000 "a1").1

/-- Caller 1 then completes the auto-refresh branch. -/
def c9r1 : List Account × NetState × Except LaunchError LaunchEnv :=
  launchFinishRefresh testFernet c9s2 2000 c9net0 "a1" "per"

/-- Caller 2 completes its auto-refresh branch afterwards, on the state left
by caller 1. -/
def c9r2 : List Account × NetState × Except LaunchError LaunchEnv :=
  launchFinishRefresh testFernet c9r1.1 2000 c9r1.2.1 "a1" "per"

/-! Helper lemmas about the store model. -/

theorem findAccount_mapAccount (store : List Account) (accountId : String)
    (f : Account → Account) (hid : ∀ a, (f a).id = a.id) :
    findAccount (mapAccount store accountId f) accountId
      = (findAccount store accountId).map f := by
  induction store with
  | nil => rfl
  | cons a rest ih =>
    simp only [mapAccount, List.map_cons, findAccount, beq_iff_eq] at ih ⊢
    by_cases hm : a.id = accountId
    · subst hm; simp [hid]
    · simp [hm, ih]

theorem findAccount_mapAccount_map {β : Type} (store : List Account)
    (accountId q : String) (f : Account → Account) (g : Account → β)
    (hid : ∀ a, (f a).id = a.id) (hg : ∀ a, g (f a) = g a) :
    (findAccount (mapAccount store accountId f) q).map g
      = (findAccount store q).map g := by
  induction store with
  | nil => rfl
  | cons a rest ih =>
    simp only [mapAccount, List.map_cons, findAccount, beq_iff_eq] at ih ⊢
    by_cases hm : a.id = accountId
    · subst hm
      by_cases hq : a.id = q
      · subst hq; simp [hid, hg]
      · simp [hid, hq, ih]
    · by_cases hq : a.id = q
      · subst hq; simp [hm]
      · simp [hm, hq, ih]

theorem findAccount_mem_id (store : List Account) (q : String) (acc : Account)
    (hf : findAccount store q = some acc) : acc ∈ store ∧ acc.id = q := by
  induction store with
  | nil => simp [findAccount] at hf
  | cons a rest ih =>
    simp only [findAccount, beq_iff_eq] at hf
    by_cases hm : a.id = q
    · rw [if_pos hm] at hf
      have he : a = acc := by injection hf
      subst he
      exact ⟨List.mem_cons_self a rest, hm⟩
    · rw [if_neg hm] at hf
      rcases ih hf with ⟨h1, h2⟩
      exact ⟨List.mem_cons_of_mem a h1, h2⟩

theorem findAccount_eq_of_mem (store : List Account) (accountId : String)
    (acc a : Account) (hnd : (store.map (fun x => x.id)).Nodup)
    (hf : findAccount store accountId = some acc) (ha : a ∈ store)
    (hid : a.id = accountId) : a = acc := by
  rcases findAccount_mem_id store accountId acc hf with ⟨hm, hi⟩
  exact List.inj_on_of_nodup_map hnd ha hm (by rw [hid, hi])

theorem storeTypedB_mapAccount (store : List Account) (accountId : String)
    (f : Account → Account) (h : storeTypedB store = true)
    (hf : ∀ a, a ∈ store → a.id = accountId → accountTypedB a = true →
      accountTypedB (f a) = true) :
    storeTypedB (mapAccount store accountId f) = true := by
  simp only [storeTypedB, mapAccount, List.all_eq_true] at h ⊢
  intro x hx
  rcases List.mem_map.mp hx with ⟨b, hb, rfl⟩
  by_cases hid : b.id = accountId
  · simp only [hid, beq_self_eq_true, if_true]
    exact hf b hb hid (h b hb)
  · simp only [beq_iff_eq, hid, if_false]
    exact h b hb

/-! Helper lemmas characterising the branches of the refresh flow and of the
launch-credential resolution. -/

theorem launchCheck_fst (F : Fernet) (store : List Account) (now : Nat)
    (accountId : String) (acc : Account)
    (hf : findAccount store accountId = some acc) :
    (launchCheck F store now accountId).1 = setLastUsed store accountId now := by
  unfold launchCheck
  rw [hf]
  repeat' split
  all_goals simp_all

theorem launchFinishRefresh_fst (F : Fernet) (store : List Account) (now : Nat)
    (net : NetState) (accountId nm : String) :
    (launchFinishRefresh F store now net accountId nm).1
      = (refresh_oauth_token F store now net accountId).1 := by
  unfold launchFinishRefresh
  rcases h : refresh_oauth_token F store now net accountId with ⟨s', n', r⟩
  cases r with
  | ok v =>
    repeat' split
    all_goals simp_all
  | error e => rfl

theorem refresh_netError (F : Fernet) (store : List Account) (now : Nat)
    (net : NetState) (accountId : String) (acc : Account) (rt msg : String)
    (hf : findAccount store accountId = some acc) (ht : acc.authType = "oauth")
    (hd : _decrypt F acc.refreshTokenEnc = some rt) (hne : rt ≠ "")
    (ho : net.oracle net.count = .netError msg) :
    refresh_oauth_token F store now net accountId =
      (store, { net with count := net.count + 1, sent := net.sent ++ [rt] },
       .error (.connectionError msg)) := by
  simp only [refresh_oauth_token, postRefresh, hf, ht, hd, ho]
  simp [hne]

theorem refresh_rejected (F : Fernet) (store : List Account) (now : Nat)
    (net : NetState) (accountId : String) (acc : Account) (rt : String)
    (status : Nat) (body : String) (json : TokenJson)
    (hf : findAccount store accountId = some acc) (ht : acc.authType = "oauth")
    (hd : _decrypt F acc.refreshTokenEnc = some rt) (hne : rt ≠ "")
    (ho : net.oracle net.count = .http status body json) (hst : status ≠ 200) :
    refresh_oauth_token F store now net accountId =
      (store, { net with count := net.count + 1, sent := net.sent ++ [rt] },
       .error (.rejected status (rejectDetail status body))) := by
  simp only [refresh_oauth_token, postRefresh, hf, ht, hd, ho]
  simp [hne, hst]

theorem refresh_missingAccess (F : Fernet) (store : List Account) (now : Nat)
    (net : NetState) (accountId : String) (acc : Account) (rt : String)
    (body : String) (json : TokenJson)
    (hf : findAccount store accountId = some acc) (ht : acc.authType = "oauth")
    (hd : _decrypt F acc.refreshTokenEnc = some rt) (hne : rt ≠ "")
    (ho : net.oracle net.count = .http 200 body json)
    (hA : json.accessToken = "") :
    refresh_oauth_token F store now net accountId =
      (store, { net with count := net.count + 1, sent := net.sent ++ [rt] },
       .error .missingAccessToken) := by
  simp only [refresh_oauth_token, postRefresh, hf, ht, hd, ho]
  simp [hne, hA]

theorem refresh_ok (F : Fernet) (store : List Account) (now : Nat)
    (net : NetState) (accountId : String) (acc : Account) (rt : String)
    (body : String) (json : TokenJson)
    (hf : findAccount store accountId = some acc) (ht : acc.authType = "oauth")
    (hd : _decrypt F acc.refreshTokenEnc = some rt) (hne : rt ≠ "")
    (ho : net.oracle net.count = .http 200 body json)
    (hA : json.accessToken ≠ "") :
    refresh_oauth_token F store now net accountId =
      (mapAccount store accountId (applyUpdate F
         { accessToken := some json.accessToken,
           refreshToken := some json.refreshToken,
           expiresAt := some (if json.expiresIn ≠ 0 then now + json.expiresIn * 1000 else 0) }),
       { net with count := net.count + 1, sent := net.sent ++ [rt] },
       .ok { tokenSuffix := json.accessToken.takeRight 6,
             expiresInMin := if json.expiresIn ≠ 0 then some (json.expiresIn / 60) else none }) := by
  simp only [refresh_oauth_token, postRefresh, update_account, hf, ht, hd, ho]
  simp [hne, hA]

theorem refresh_fst_cases (F : Fernet) (store : List Account) (now : Nat)
    (net : NetState) (accountId : String) :
    (refresh_oauth_token F store now net accountId).1 = store ∨
    ∃ (acc : Account) (json : TokenJson),
      findAccount store accountId = some acc ∧ acc.authType = "oauth" ∧
      (refresh_oauth_token F store now net accountId).1
        = mapAccount store accountId (applyUpdate F
            { accessToken := some json.accessToken,
              refreshToken := some json.refreshToken,
              expiresAt := some (if json.expiresIn ≠ 0 then now + json.expiresIn * 1000 else 0) }) := by
  cases hf : findAccount store accountId with
  | none => left; simp [refresh_oauth_token, hf]
  | some acc =>
    by_cases ht : acc.authType = "oauth"
    · cases hd : _decrypt F acc.refreshTokenEnc with
      | none => left; simp [refresh_oauth_token, hf, ht, hd]
      | some rt =>
        by_cases hrt : rt = ""
        · left; simp [refresh_oauth_token, hf, ht, hd, hrt]
        · cases ho : net.oracle net.count with
          | netError msg =>
            left
            rw [refresh_netError F store now net accountId acc rt msg hf ht hd hrt ho]
          | http status body json =>
            by_cases hst : status = 200
            · by_cases hA : json.accessToken = ""
              · left
                subst hst
                rw [refresh_missingAccess F store now net accountId acc rt body json hf ht hd hrt ho hA]
              · right
                subst hst
                refine ⟨acc, json, rfl, ht, ?_⟩
                rw [refresh_ok F store now net accountId acc rt body json hf ht hd hrt ho hA]
            · left
              rw [refresh_rejected F store now net accountId acc rt status body json hf ht hd hrt ho hst]
    · left; simp [refresh_oauth_token, hf, ht]

theorem jLookup_jSet_ne (fields : List (String × JVal)) (key k : String)
    (v : JVal) (h : k ≠ key) :
    jLookup (jSet fields key v) k = jLookup fields k := by
  induction fields with
  | nil => simp [jSet, jLookup, Ne.symm h]
  | cons p rest ih =>
    by_cases hp : p.1 = key
    · simp [jSet, jLookup, beq_iff_eq, hp, h, Ne.symm h]
    · simp [jSet, jLookup, beq_iff_eq, hp, ih]

/-- C3: for every caller environment and every launched account, the child
environment built by the server terminal path and by the CLI launch path
contains the injected identity variable and maps the other identity variable
to nothing, even when the caller's environment carried it. -/
theorem child_env_exactly_one_identity_var (caller : EnvMap) (k t : String) :
    envGet (serverChildEnv caller (.apiKey k)) "ANTHROPIC_API_KEY" = some k ∧
    envGet (serverChildEnv caller (.apiKey k)) "CLAUDE_CODE_OAUTH_TOKEN" = none ∧
    envGet (serverChildEnv caller (.oauthToken t)) "CLAUDE_CODE_OAUTH_TOKEN" = some t ∧
    envGet (serverChildEnv caller (.oauthToken t)) "ANTHROPIC_API_KEY" = none ∧
    envGet (cliChildEnv caller (.apiKey k)) "ANTHROPIC_API_KEY" = some k ∧
    envGet (cliChildEnv caller (.apiKey k)) "CLAUDE_CODE_OAUTH_TOKEN" = none ∧
    envGet (cliChildEnv caller (.oauthToken t)) "CLAUDE_CODE_OAUTH_TOKEN" = some t ∧
    envGet (cliChildEnv caller (.oauthToken t)) "ANTHROPIC_API_KEY" = none := by
  refine ⟨?_, ?_, ?_, ?_, ?_, ?_, ?_, ?_⟩ <;>
    simp [serverChildEnv, cliChildEnv, envSetDefault, envPop, envSet, envGet]

/-- Witness for C3: a caller environment carrying both identity variables, an
ApiKey launch; the child sees the key and no OAuth token. -/
theorem child_env_exactly_one_identity_var_witness :
    envGet (serverChildEnv
      (envSet (envSet (fun _ => none) "CLAUDE_CODE_OAUTH_TOKEN" "stale")
        "ANTHROPIC_API_KEY" "old")
      (.apiKey "sk-ant-api03-X")) "ANTHROPIC_API_KEY" = some "sk-ant-api03-X" ∧
    envGet (serverChildEnv
      (envSet (envSet (fun _ => none) "CLAUDE_CODE_OAUTH_TOKEN" "stale")
        "ANTHROPIC_API_KEY" "old")
      (.apiKey "sk-ant-api03-X")) "CLAUDE_CODE_OAUTH_TOKEN" = none := by
  have h := child_env_exactly_one_identity_var
    (envSet (envSet (fun _ => none) "CLAUDE_CODE_OAUTH_TOKEN" "stale")
      "ANTHROPIC_API_KEY" "old") "sk-ant-api03-X" ""
  exact ⟨h.1, h.2.1⟩

/-- C4: under the Fernet library contract (decryption inverts encryption and
tokens are never empty), the db.py `_encrypt`/`_decrypt` pair round-trips
every non-empty string and both are no-ops on the empty string. -/
theorem encrypt_decrypt_roundtrip (F : Fernet) (s : String) (hs : s ≠ "")
    (hrt : F.dec (F.enc s) = some s) (hne : F.enc s ≠ "") :
    _decrypt F (_encrypt F s) = some s ∧
    _encrypt F "" = "" ∧ _decrypt F "" = some "" := by
  refine ⟨?_, rfl, rfl⟩
  simp [_encrypt, _decrypt, hs, hne, hrt]

/-- Witness for C4 at the concrete cipher and the string `secret`. -/
theorem encrypt_decrypt_roundtrip_witness :
    _decrypt testFernet (_encrypt testFernet "secret") = some "secret" ∧
    _encrypt testFernet "" = "" ∧ _decrypt testFernet "" = some "" :=
  encrypt_decrypt_roundtrip testFernet "secret" (by decide) (by decide) (by decide)

/-- C7: the refresh write-back to the external credentials file leaves every
top-level key other than `claudeAiOauth` bound to exactly what it was bound to
before; only the OAuth object is replaced. -/
theorem sync_preserves_other_keys (data : List (String × JVal))
    (tok rtok : String) (e : Nat) (k : String) (hk : k ≠ "claudeAiOauth") :
    jLookup (_sync_credentials_file data tok rtok e) k = jLookup data k :=
  jLookup_jSet_ne data "claudeAiOauth" k _ hk

/-- Witness for C7: a file with an unrelated key keeps it after the
write-back. -/
theorem sync_preserves_other_keys_witness :
    jLookup (_sync_credentials_file
      [("other", .str "x"), ("claudeAiOauth", .str "old")] "A" "R" 5) "other"
      = some (.str "x") := by
  rw [sync_preserves_other_keys _ _ _ _ _ (by decide)]; rfl

/-- C10: whenever the requested account exists, `get_launch_env` leaves the
store with that account's `last_used` set to the current clock, whatever the
outcome of the call (including the missing-credential, expired and
refresh-failure error paths, which are reached only after the update). -/
theorem resolve_updates_last_used_always (F : Fernet) (store : List Account)
    (now : Nat) (net : NetState) (accountId : String) (acc : Account)
    (hf : findAccount store accountId = some acc) :
    (findAccount (get_launch_env F store now net accountId).1 accountId).map
      (fun a => a.lastUsed) = some (some now) := by
  have h1 : (launchCheck F store now accountId).1 = setLastUsed store accountId now :=
    launchCheck_fst F store now accountId acc hf
  have hfind : ∀ s' : List Account, s' = setLastUsed store accountId now →
      (findAccount s' accountId).map (fun a => a.lastUsed) = some (some now) := by
    intro s' hs'
    rw [hs', setLastUsed, findAccount_mapAccount store accountId
      (fun a => { a with lastUsed := some now }) (fun a => rfl), hf]
    rfl
  unfold get_launch_env
  rcases hlc : launchCheck F store now accountId with ⟨s', o⟩
  rw [hlc] at h1
  cases o with
  | fail e => exact hfind s' h1
  | ready env => exact hfind s' h1
  | refreshNeeded nm =>
    rw [launchFinishRefresh_fst]
    rcases refresh_fst_cases F s' now net accountId with hc | ⟨acc2, json, hfind2, ht2, hc⟩
    · rw [hc]; exact hfind s' h1
    · rw [hc]
      rw [findAccount_mapAccount_map s' accountId accountId _ (fun a => a.lastUsed)]
      · exact hfind s' h1
      · intro a; rfl
      · intro a; rfl

/-- Witness for C10: resolving an ApiKey account with an empty stored key
fails with the missing-credential error, yet `last_used` was updated. -/
theorem resolve_updates_last_used_always_witness :
    (findAccount (get_launch_env testFernet [apiKeyAccount ""] 42
        (constNet (.netError "x")) "a1").1 "a1").map (fun a => a.lastUsed)
      = some (some 42) ∧
    (get_launch_env testFernet [apiKeyAccount ""] 42
        (constNet (.netError "x")) "a1").2.2 = .error .missingApiKey :=
  ⟨resolve_updates_last_used_always testFernet [apiKeyAccount ""] 42
      (constNet (.netError "x")) "a1" (apiKeyAccount "") rfl,
   by decide⟩

/-- C9: the code has no per-account refresh guard; in the interleaving where
both callers pass the expiry check before either refresh runs, the two
`resolve_launch_credentials` calls on the same expired OAuth account make two
network refresh requests (the second posting the successor refresh token) and
the callers receive different access tokens, instead of one request and one
shared token. -/
theorem interleaved_resolves_double_refresh :
    (launchCheck testFernet c9store0 2000 "a1").2 = .refreshNeeded "per" ∧
    (launchCheck testFernet c9s1 2000 "a1").2 = .refreshNeeded "per" ∧
    c9r1.2.2 = .ok (.oauthToken "A2") ∧
    c9r2.2.2 = .ok (.oauthToken "A3") ∧
    c9r2.2.1.count = 2 ∧
    c9r2.2.1.sent = ["R1", "R2"] := by
  refine ⟨by decide, by decide, by decide, by decide, rfl, by decide⟩

/-- Counterexample to C1: a success response carrying access_token `A2`,
refresh_token `R2` and expires_in = 0 is accepted, but the stored expires_at
is 0 rather than now + expires_in (= 5000 at clock 5000). -/
theorem refresh_zero_expires_in_counterexample :
    (refresh_oauth_token testFernet [oauthAccount "GA1" "GR1" 1000] 5000
        (constNet (.http 200 "" { accessToken := "A2", refreshToken := "R2", expiresIn := 0 }))
        "a1").2.2
      = .ok { tokenSuffix := "A2", expiresInMin := none } ∧
    (findAccount (refresh_oauth_token testFernet [oauthAccount "GA1" "GR1" 1000] 5000
        (constNet (.http 200 "" { accessToken := "A2", refreshToken := "R2", expiresIn := 0 }))
        "a1").1 "a1").map (fun a => a.expiresAt) = some 0 ∧
    (5000 + 0 * 1000 : Nat) ≠ 0 :=
  ⟨by decide, by decide, by decide⟩

/-- C1 (amended): on a success response carrying a new access token, a new
refresh token and a nonzero expires_in, the vault record afterwards holds
exactly the encryptions of the new access and refresh tokens (the old refresh
token is overwritten) together with expires_at = now + expires_in in epoch
milliseconds, and under the cipher contract the stored ciphertexts decrypt to
precisely the new tokens; a response with expires_in = 0 instead stores
expires_at = 0 ("no known expiry"). -/
theorem refresh_success_overwrites_tokens_and_expiry
    (F : Fernet) (store : List Account) (now : Nat) (net : NetState)
    (accountId : String) (acc : Account) (rt body : String) (json : TokenJson)
    (hf : findAccount store accountId = some acc) (ht : acc.authType = "oauth")
    (hd : _decrypt F acc.refreshTokenEnc = some rt) (hne : rt ≠ "")
    (ho : net.oracle net.count = .http 200 body json)
    (hA : json.accessToken ≠ "") (hin : json.expiresIn ≠ 0)
    (hdA : F.dec (F.enc json.accessToken) = some json.accessToken)
    (hEA : F.enc json.accessToken ≠ "")
    (hdR : json.refreshToken ≠ "" → F.dec (F.enc json.refreshToken) = some json.refreshToken)
    (hER : json.refreshToken ≠ "" → F.enc json.refreshToken ≠ "") :
    (refresh_oauth_token F store now net accountId).2.2
        = .ok { tokenSuffix := json.accessToken.takeRight 6,
                expiresInMin := some (json.expiresIn / 60) } ∧
    findAccount (refresh_oauth_token F store now net accountId).1 accountId
        = some { acc with
            accessTokenEnc := _encrypt F json.accessToken,
            refreshTokenEnc := _encrypt F json.refreshToken,
            expiresAt := now + json.expiresIn * 1000 } ∧
    _decrypt F (_encrypt F json.accessToken) = some json.accessToken ∧
    _decrypt F (_encrypt F json.refreshToken) = some json.refreshToken := by
  rw [refresh_ok F store now net accountId acc rt body json hf ht hd hne ho hA]
  refine ⟨by simp [hin], ?_, ?_, ?_⟩
  · rw [findAccount_mapAccount store accountId]
    · rw [hf]
      simp [applyUpdate, hin]
    · intro a; rfl
  · simp [_encrypt, _decrypt, hA, hEA, hdA]
  · by_cases hRe : json.refreshToken = ""
    · simp [_encrypt, _decrypt, hRe]
    · simp [_encrypt, _decrypt, hRe, hdR hRe, hER hRe]

/-- Witness for the amended C1 at a concrete expired account and a scripted
endpoint answering with tokens `A2`/`R2` and expires_in 3600. -/
theorem refresh_success_overwrites_tokens_and_expiry_witness :
    (refresh_oauth_token testFernet [oauthAccount "GA1" "GR1" 1000] 5000
        (constNet (.http 200 "" { accessToken := "A2", refreshToken := "R2", expiresIn := 3600 }))
        "a1").2.2
      = .ok { tokenSuffix := "A2", expiresInMin := some 60 } ∧
    findAccount (refresh_oauth_token testFernet [oauthAccount "GA1" "GR1" 1000] 5000
        (constNet (.http 200 "" { accessToken := "A2", refreshToken := "R2", expiresIn := 3600 }))
        "a1").1 "a1"
      = some { oauthAccount "GA1" "GR1" 1000 with
          accessTokenEnc := _encrypt testFernet "A2",
          refreshTokenEnc := _encrypt testFernet "R2",
          expiresAt := 5000 + 3600 * 1000 } := by
  have h := refresh_success_overwrites_tokens_and_expiry testFernet
    [oauthAccount "GA1" "GR1" 1000] 5000
    (constNet (.http 200 "" { accessToken := "A2", refreshToken := "R2", expiresIn := 3600 }))
    "a1" (oauthAccount "GA1" "GR1" 1000) "R1" ""
    { accessToken := "A2", refreshToken := "R2", expiresIn := 3600 }
    rfl rfl (by decide) (by decide) rfl (by decide) (by decide) (by decide)
    (by decide) (fun _ => by decide) (fun _ => by decide)
  exact ⟨h.1, h.2.1⟩

/-- Counterexample to C2: an OAuth account with expires_at = 5000 observed at
clock 5000 is reported Ok (zero minutes remaining), not Expired, and resolve
returns the stored token without any network request. -/
theorem expiry_boundary_counterexample :
    get_token_status [oauthAccount "GA1" "GR1" 5000] 5000 "a1"
      = .oauthOk (some 0) true ∧
    get_token_status [oauthAccount "GA1" "GR1" 5000] 5000 "a1" ≠ .expired true ∧
    (get_launch_env testFernet [oauthAccount "GA1" "GR1" 5000] 5000
        (constNet (.netError "unreachable")) "a1").2.2 = .ok (.oauthToken "A1") ∧
    (get_launch_env testFernet [oauthAccount "GA1" "GR1" 5000] 5000
        (constNet (.netError "unreachable")) "a1").2.1.count = 0 :=
  ⟨by decide, by decide, by decide, rfl⟩

/-- C2 (amended): the expiry boundary is exclusive on the expired side: with
expires_at > 0 and the clock exactly equal to expires_at, both db.py checks
(`now_ms > expires_at`) are false, so token_status reports Ok with zero whole
minutes remaining and resolve returns the stored token, leaving the network
untouched; the expired branch is taken only when now strictly exceeds
expires_at. -/
theorem expiry_boundary_exclusive (F : Fernet) (store : List Account)
    (net : NetState) (accountId : String) (acc : Account) (t : String)
    (hf : findAccount store accountId = some acc) (ht : acc.authType = "oauth")
    (hae : acc.accessTokenEnc ≠ "") (hexp : acc.expiresAt > 0)
    (hd : _decrypt F acc.accessTokenEnc = some t) (htne : t ≠ "") :
    get_token_status store acc.expiresAt accountId
      = .oauthOk (some 0) (acc.refreshTokenEnc != "") ∧
    get_launch_env F store acc.expiresAt net accountId
      = (setLastUsed store accountId acc.expiresAt, net, .ok (.oauthToken t)) := by
  have hA : ¬ acc.authType = "api_key" := by rw [ht]; decide
  constructor
  · simp [get_token_status, hf, hA, hae, hexp, Nat.sub_self]
  · have hlc : launchCheck F store acc.expiresAt accountId
        = (setLastUsed store accountId acc.expiresAt, .ready (.oauthToken t)) := by
      simp [launchCheck, hf, hA, hd, htne, hexp]
    simp [get_launch_env, hlc]

/-- Witness for the amended C2 at a concrete account with expiry 5000 read at
clock 5000. -/
theorem expiry_boundary_exclusive_witness :
    get_token_status [oauthAccount "GA1" "GR1" 5000] 5000 "a1"
      = .oauthOk (some 0) true ∧
    get_launch_env testFernet [oauthAccount "GA1" "GR1" 5000] 5000
        (constNet (.netError "unreachable")) "a1"
      = (setLastUsed [oauthAccount "GA1" "GR1" 5000] "a1" 5000,
         constNet (.netError "unreachable"), .ok (.oauthToken "A1")) :=
  expiry_boundary_exclusive testFernet [oauthAccount "GA1" "GR1" 5000]
    (constNet (.netError "unreachable")) "a1" (oauthAccount "GA1" "GR1" 5000)
    "A1" rfl rfl (by decide) (by decide) rfl (by decide)

/-- Counterexample to C8: a corrupt stored API-key ciphertext makes
`get_launch_env` fail with the undegraded decryption error (the Fernet
`InvalidToken` escapes; its callers catch only ValueError), instead of the
missing-credential outcome the claim requires. -/
theorem resolution_propagates_corrupt_counterexample :
    (get_launch_env testFernet [apiKeyAccount "corrupt"] 7
        (constNet (.netError "x")) "a1").2.2 = .error .corruptCredential ∧
    (get_launch_env testFernet [apiKeyAccount "corrupt"] 7
        (constNet (.netError "x")) "a1").2.2 ≠ .error .missingApiKey :=
  ⟨by decide, by decide⟩

/-- C8 (amended): account listing and masking recover locally from a corrupt
ciphertext — `_mask` catches the decryption failure and renders the `***`
placeholder, never propagating it — but credential resolution does not:
`get_launch_env` on an account whose stored credential field does not decrypt
propagates the decryption failure (as an exception that is not a ValueError),
for both ApiKey and OAuth accounts. -/
theorem corrupt_credential_handling :
    (∀ (F : Fernet) (encrypted template : String),
      F.dec encrypted = none → encrypted ≠ "" →
      _mask F encrypted template = pyFormat template "***") ∧
    (∀ (F : Fernet) (store : List Account) (now : Nat) (net : NetState)
       (accountId : String) (acc : Account),
      findAccount store accountId = some acc →
      acc.authType = "api_key" → acc.apiKeyEnc ≠ "" → F.dec acc.apiKeyEnc = none →
      get_launch_env F store now net accountId
        = (setLastUsed store accountId now, net, .error .corruptCredential)) ∧
    (∀ (F : Fernet) (store : List Account) (now : Nat) (net : NetState)
       (accountId : String) (acc : Account),
      findAccount store accountId = some acc →
      acc.authType ≠ "api_key" → acc.accessTokenEnc ≠ "" →
      F.dec acc.accessTokenEnc = none →
      get_launch_env F store now net accountId
        = (setLastUsed store accountId now, net, .error .corruptCredential)) := by
  refine ⟨?_, ?_, ?_⟩
  · intro F encrypted template hdec hne
    simp [_mask, _decrypt, hne, hdec]
  · intro F store now net accountId acc hf hA hne hdec
    have hlc : launchCheck F store now accountId
        = (setLastUsed store accountId now, .fail .corruptCredential) := by
      simp [launchCheck, hf, hA, _decrypt, hne, hdec]
    simp [get_launch_env, hlc]
  · intro F store now net accountId acc hf hA hne hdec
    have hlc : launchCheck F store now accountId
        = (setLastUsed store accountId now, .fail .corruptCredential) := by
      simp [launchCheck, hf, hA, _decrypt, hne, hdec]
    simp [get_launch_env, hlc]

/-- Witness for the amended C8: masking a foreign ciphertext yields the
placeholder, and resolution on the same account propagates the decryption
error. -/
theorem corrupt_credential_handling_witness :
    _mask testFernet "corrupt" "sk-ant-...\x7b\x7d"
      = pyFormat "sk-ant-...\x7b\x7d" "***" ∧
    get_launch_env testFernet [apiKeyAccount "corrupt"] 7
        (constNet (.netError "x")) "a1"
      = (setLastUsed [apiKeyAccount "corrupt"] "a1" 7,
         constNet (.netError "x"), .error .corruptCredential) :=
  ⟨corrupt_credential_handling.1 testFernet "corrupt" "sk-ant-...\x7b\x7d"
      (by decide) (by decide),
   corrupt_credential_handling.2.1 testFernet [apiKeyAccount "corrupt"] 7
      (constNet (.netError "x")) "a1" (apiKeyAccount "corrupt") rfl rfl
      (by decide) (by decide)⟩

/-- C5: with a refreshable OAuth account, `refresh_oauth_token` sends exactly
one network request whatever the outcome (no retry); a transport failure
yields exactly the connection error (RefreshUnreachable) with the store
unchanged, and a non-200 status yields exactly the rejection error
(RefreshRejected) carrying the truncated response body, again with the store
unchanged. -/
theorem refresh_error_mapping (F : Fernet) (store : List Account) (now : Nat)
    (net : NetState) (accountId : String) (acc : Account) (rt : String)
    (hf : findAccount store accountId = some acc) (ht : acc.authType = "oauth")
    (hd : _decrypt F acc.refreshTokenEnc = some rt) (hne : rt ≠ "") :
    (refresh_oauth_token F store now net accountId).2.1.count = net.count + 1 ∧
    (refresh_oauth_token F store now net accountId).2.1.sent = net.sent ++ [rt] ∧
    (∀ msg, net.oracle net.count = .netError msg →
      refresh_oauth_token F store now net accountId
        = (store, { net with count := net.count + 1, sent := net.sent ++ [rt] },
           .error (.connectionError msg))) ∧
    (∀ status body json, net.oracle net.count = .http status body json →
      status ≠ 200 →
      refresh_oauth_token F store now net accountId
        = (store, { net with count := net.count + 1, sent := net.sent ++ [rt] },
           .error (.rejected status (rejectDetail status body)))) ∧
    (∀ msg, (refresh_oauth_token F store now net accountId).2.2
        = .error (.connectionError msg) → net.oracle net.count = .netError msg) ∧
    (∀ status detail, (refresh_oauth_token F store now net accountId).2.2
        = .error (.rejected status detail) →
      status ≠ 200 ∧ ∃ body json, net.oracle net.count = .http status body json
        ∧ detail = rejectDetail status body) := by
  have hcount : (refresh_oauth_token F store now net accountId).2.1.count = net.count + 1 ∧
      (refresh_oauth_token F store now net accountId).2.1.sent = net.sent ++ [rt] := by
    cases ho : net.oracle net.count with
    | netError msg =>
      rw [refresh_netError F store now net accountId acc rt msg hf ht hd hne ho]
      exact ⟨rfl, rfl⟩
    | http status body json =>
      by_cases hst : status = 200
      · subst hst
        by_cases hA : json.accessToken = ""
        · rw [refresh_missingAccess F store now net accountId acc rt body json hf ht hd hne ho hA]
          exact ⟨rfl, rfl⟩
        · rw [refresh_ok F store now net accountId acc rt body json hf ht hd hne ho hA]
          exact ⟨rfl, rfl⟩
      · rw [refresh_rejected F store now net accountId acc rt status body json hf ht hd hne ho hst]
        exact ⟨rfl, rfl⟩
  refine ⟨hcount.1, hcount.2, ?_, ?_, ?_, ?_⟩
  · intro msg ho
    exact refresh_netError F store now net accountId acc rt msg hf ht hd hne ho
  · intro status body json ho hst
    exact refresh_rejected F store now net accountId acc rt status body json hf ht hd hne ho hst
  · intro msg h
    cases ho : net.oracle net.count with
    | netError m =>
      rw [refresh_netError F store now net accountId acc rt m hf ht hd hne ho] at h
      simp only [Except.error.injEq, RefreshError.connectionError.injEq] at h
      rw [h]
    | http status body json =>
      by_cases hst : status = 200
      · subst hst
        by_cases hA : json.accessToken = ""
        · rw [refresh_missingAccess F store now net accountId acc rt body json hf ht hd hne ho hA] at h
          simp at h
        · rw [refresh_ok F store now net accountId acc rt body json hf ht hd hne ho hA] at h
          simp at h
      · rw [refresh_rejected F store now net accountId acc rt status body json hf ht hd hne ho hst] at h
        simp at h
  · intro status detail h
    cases ho : net.oracle net.count with
    | netError m =>
      rw [refresh_netError F store now net accountId acc rt m hf ht hd hne ho] at h
      simp at h
    | http status0 body json =>
      by_cases hst : status0 = 200
      · subst hst
        by_cases hA : json.accessToken = ""
        · rw [refresh_missingAccess F store now net accountId acc rt body json hf ht hd hne ho hA] at h
          simp at h
        · rw [refresh_ok F store now net accountId acc rt body json hf ht hd hne ho hA] at h
          simp at h
      · rw [refresh_rejected F store now net accountId acc rt status0 body json hf ht hd hne ho hst] at h
        simp only [Except.error.injEq, RefreshError.rejected.injEq] at h
        obtain ⟨h1, h2⟩ := h
        subst h1
        exact ⟨hst, body, json, rfl, h2.symm⟩

/-- Witness for C5: a concrete account against an unreachable endpoint; one
request is logged, the store is unchanged, and the error is the connection
error. -/
theorem refresh_error_mapping_witness :
    refresh_oauth_token testFernet [oauthAccount "GA1" "GR1" 1000] 5
        (constNet (.netError "refused")) "a1"
      = ([oauthAccount "GA1" "GR1" 1000],
         { constNet (.netError "refused") with count := 0 + 1, sent := [] ++ ["R1"] },
         .error (.connectionError "refused")) :=
  (refresh_error_mapping testFernet [oauthAccount "GA1" "GR1" 1000] 5
      (constNet (.netError "refused")) "a1" (oauthAccount "GA1" "GR1" 1000)
      "R1" rfl rfl (by decide) (by decide)).2.2.1 "refused" rfl

theorem accountTypedB_applyUpdate (F : Fernet) (kw : UpdateArgs) (a : Account)
    (hta : accountTypedB a = true)
    (hkwT : kw.authType = none)
    (hk1 : a.authType = "api_key" →
      kw.accessToken.getD "" = "" ∧ kw.refreshToken.getD "" = "")
    (hk2 : a.authType = "oauth" → kw.apiKey.getD "" = "") :
    accountTypedB (applyUpdate F kw a) = true := by
  simp only [accountTypedB, Bool.and_eq_true, Bool.or_eq_true, bne_iff_ne,
    beq_iff_eq, ne_eq] at hta ⊢
  obtain ⟨hta1, hta2⟩ := hta
  have hauth : (applyUpdate F kw a).authType = a.authType := by
    simp [applyUpdate, hkwT]
  refine ⟨?_, ?_⟩
  · by_cases h1 : a.authType = "api_key"
    · right
      have hae : a.accessTokenEnc = "" ∧ a.refreshTokenEnc = "" := by
        rcases hta1 with h | h
        · exact absurd h1 h
        · exact h
      obtain ⟨hk1a, hk1r⟩ := hk1 h1
      constructor
      · cases hks : kw.accessToken with
        | none => simp [applyUpdate, hks, hae.1]
        | some v =>
          rw [hks] at hk1a; simp at hk1a
          simp [applyUpdate, hks, hk1a, _encrypt]
      · cases hks : kw.refreshToken with
        | none => simp [applyUpdate, hks, hae.2]
        | some v =>
          rw [hks] at hk1r; simp at hk1r
          simp [applyUpdate, hks, hk1r, _encrypt]
    · left; rw [hauth]; exact h1
  · by_cases h2 : a.authType = "oauth"
    · right
      have hak : a.apiKeyEnc = "" := by
        rcases hta2 with h | h
        · exact absurd h2 h
        · exact h
      cases hks : kw.apiKey with
      | none => simp [applyUpdate, hks, hak]
      | some v =>
        have hv := hk2 h2; rw [hks] at hv; simp at hv
        simp [applyUpdate, hks, hv, _encrypt]
    · left; rw [hauth]; exact h2

theorem storeTypedB_update_account (F : Fernet) (store : List Account)
    (accountId : String) (kw : UpdateArgs) (acc : Account)
    (store' : List Account)
    (h : storeTypedB store = true)
    (hnd : (store.map (fun x => x.id)).Nodup)
    (hfind : findAccount store accountId = some acc)
    (hkwT : kw.authType = none)
    (hk1 : acc.authType = "api_key" →
      kw.accessToken.getD "" = "" ∧ kw.refreshToken.getD "" = "")
    (hk2 : acc.authType = "oauth" → kw.apiKey.getD "" = "")
    (hok : update_account F store accountId kw = .ok store') :
    storeTypedB store' = true := by
  have hs : store' = mapAccount store accountId (applyUpdate F kw) := by
    unfold update_account at hok
    rw [hfind] at hok
    injection hok with hok
    exact hok.symm
  rw [hs]
  apply storeTypedB_mapAccount store accountId _ h
  intro a ha hid hta
  have he : a = acc := findAccount_eq_of_mem store accountId acc a hnd hfind ha hid
  subst he
  exact accountTypedB_applyUpdate F kw a hta hkwT hk1 hk2

theorem storeTypedB_refresh (F : Fernet) (store : List Account) (now : Nat)
    (net : NetState) (accountId : String)
    (h : storeTypedB store = true)
    (hnd : (store.map (fun x => x.id)).Nodup) :
    storeTypedB (refresh_oauth_token F store now net accountId).1 = true := by
  rcases refresh_fst_cases F store now net accountId with hc | ⟨acc, json, hfind, ht, hc⟩
  · rw [hc]; exact h
  · rw [hc]
    apply storeTypedB_mapAccount store accountId _ h
    intro a ha hid hta
    have he : a = acc := findAccount_eq_of_mem store accountId acc a hnd hfind ha hid
    subst he
    apply accountTypedB_applyUpdate F _ a hta rfl
    · intro h1
      exact absurd (ht.symm.trans h1) (by decide)
    · intro _
      rfl

theorem storeTypedB_add (F : Fernet) (store : List Account)
    (accountId nm authType apiKey accessToken refreshToken : String)
    (expiresAt : Nat) (store' : List Account)
    (h : storeTypedB store = true)
    (hc1 : authType = "api_key" → accessToken = "" ∧ refreshToken = "")
    (hc2 : authType = "oauth" → apiKey = "")
    (hok : add_account F store accountId nm authType apiKey accessToken
      refreshToken expiresAt = .ok store') :
    storeTypedB store' = true := by
  unfold add_account at hok
  by_cases hdup : store.any (fun a => a.id == accountId || a.name == nm) = true
  · rw [if_pos hdup] at hok
    exact Except.noConfusion hok
  · rw [if_neg hdup] at hok
    injection hok with hok
    rw [← hok]
    simp only [storeTypedB, List.all_append, Bool.and_eq_true]
    refine ⟨h, ?_⟩
    simp only [List.all_cons, List.all_nil, Bool.and_true]
    simp only [accountTypedB, Bool.and_eq_true, Bool.or_eq_true, bne_iff_ne,
      beq_iff_eq, ne_eq]
    constructor
    · by_cases h1 : authType = "api_key"
      · right
        obtain ⟨ha, hr⟩ := hc1 h1
        exact ⟨by simp [_encrypt, ha], by simp [_encrypt, hr]⟩
      · left; exact h1
    · by_cases h2 : authType = "oauth"
      · right
        have := hc2 h2
        simp [_encrypt, this]
      · left; exact h2

theorem storeTypedB_capture (F : Fernet) (store : List Account) (now : Nat)
    (file : Option (List (String × JVal))) (accountId : String) (acc : Account)
    (h : storeTypedB store = true)
    (hnd : (store.map (fun x => x.id)).Nodup)
    (hfind : findAccount store accountId = some acc)
    (ht : acc.authType = "oauth") :
    storeTypedB (capture_oauth_tokens F store now file accountId).1 = true := by
  cases file with
  | none => exact h
  | some data =>
    simp only [capture_oauth_tokens]
    by_cases hA : jGetStr (jGetObj data "claudeAiOauth") "accessToken" = ""
    · simp only [hA, if_true]
      exact h
    · simp only [hA, if_false]
      cases hu : update_account F store accountId
        { accessToken := some (jGetStr (jGetObj data "claudeAiOauth") "accessToken"),
          refreshToken := some (jGetStr (jGetObj data "claudeAiOauth") "refreshToken"),
          expiresAt := some (jGetNat (jGetObj data "claudeAiOauth") "expiresAt") } with
      | error e => exact h
      | ok store' =>
        exact storeTypedB_update_account F store accountId
          { accessToken := some (jGetStr (jGetObj data "claudeAiOauth") "accessToken"),
            refreshToken := some (jGetStr (jGetObj data "claudeAiOauth") "refreshToken"),
            expiresAt := some (jGetNat (jGetObj data "claudeAiOauth") "expiresAt") }
          acc store' h hnd hfind rfl
          (fun h1 => absurd (ht.symm.trans h1) (by decide))
          (fun _ => rfl) hu

theorem storeTypedB_import (F : Fernet) (entries : List (String × ImportEntry)) :
    ∀ store, storeTypedB store = true →
    (∀ p ∈ entries,
      (((p : String × ImportEntry).2.authType = "api_key" →
        p.2.accessToken = "" ∧ p.2.refreshToken = "") ∧
       (p.2.authType = "oauth" → p.2.apiKey = ""))) →
    storeTypedB (import_accounts F store entries).1 = true := by
  induction entries with
  | nil =>
    intro store h _
    exact h
  | cons p rest ih =>
    intro store h hents
    obtain ⟨salt, e⟩ := p
    unfold import_accounts
    by_cases hskip : e.name.trim = "" ∨ store.any (fun a => a.name == e.name.trim) = true
    · rw [if_pos hskip]
      exact ih store h (fun q hq => hents q (List.mem_cons_of_mem _ hq))
    · rw [if_neg hskip]
      rcases hadd : add_account F store ("acc_" ++ e.name.trim ++ "_" ++ salt)
          e.name.trim e.authType e.apiKey e.accessToken e.refreshToken
          e.expiresAt with msg | store'
      · simp only [hadd]
        exact h
      · simp only [hadd]
        have hc := hents (salt, e) (List.mem_cons_self _ _)
        have h' : storeTypedB store' = true :=
          storeTypedB_add F store ("acc_" ++ e.name.trim ++ "_" ++ salt)
            e.name.trim e.authType e.apiKey e.accessToken e.refreshToken
            e.expiresAt store' h hc.1 hc.2 hadd
        have hrec := ih store' h' (fun q hq => hents q (List.mem_cons_of_mem _ hq))
        rcases hr : import_accounts F store' rest with ⟨s, r⟩
        rw [hr] at hrec
        cases r with
        | ok n => exact hrec
        | error msg => exact hrec

/-- Counterexample to C6: `capture_oauth_tokens` never checks the account's
auth_type, so capturing a credentials file into an ApiKey account succeeds
and leaves an api_key account with a non-empty access_token_enc, violating
the separation invariant the operation was claimed to preserve. -/
theorem capture_on_api_key_counterexample :
    storeTypedB [apiKeyAccount "GK1"] = true ∧
    (capture_oauth_tokens testFernet [apiKeyAccount "GK1"] 0
        (some [("claudeAiOauth", .obj [("accessToken", .str "T")])]) "a1").2
      = .ok { tokenSuffix := "T", hasRefresh := false, expiresInMin := none } ∧
    storeTypedB (capture_oauth_tokens testFernet [apiKeyAccount "GK1"] 0
        (some [("claudeAiOauth", .obj [("accessToken", .str "T")])]) "a1").1
      = false :=
  ⟨by decide, by decide, by decide⟩

/-- C6 (amended): the auth-type separation invariant is preserved by
`refresh_oauth_token` unconditionally, and by create, update, capture and
by the importer exactly when the credential fields they write match the
account's auth_type: add/import with entries carrying same-type credentials,
update with no auth_type change and no other-type credential, and capture
targeting an OAuth account.  (Capture into an ApiKey account — equivalently
an update writing OAuth tokens into one — violates the invariant: see the
counterexample.) -/
theorem vault_ops_preserve_type_separation :
    (∀ (F : Fernet) (store : List Account) (now : Nat) (net : NetState)
        (accountId : String), storeTypedB store = true →
      (store.map (fun x => x.id)).Nodup →
      storeTypedB (refresh_oauth_token F store now net accountId).1 = true) ∧
    (∀ (F : Fernet) (store : List Account)
        (accountId nm authType apiKey accessToken refreshToken : String)
        (expiresAt : Nat) (store' : List Account),
      storeTypedB store = true →
      (authType = "api_key" → accessToken = "" ∧ refreshToken = "") →
      (authType = "oauth" → apiKey = "") →
      add_account F store accountId nm authType apiKey accessToken
        refreshToken expiresAt = .ok store' →
      storeTypedB store' = true) ∧
    (∀ (F : Fernet) (store : List Account) (accountId : String)
        (kw : UpdateArgs) (acc : Account) (store' : List Account),
      storeTypedB store = true →
      (store.map (fun x => x.id)).Nodup →
      findAccount store accountId = some acc →
      kw.authType = none →
      (acc.authType = "api_key" →
        kw.accessToken.getD "" = "" ∧ kw.refreshToken.getD "" = "") →
      (acc.authType = "oauth" → kw.apiKey.getD "" = "") →
      update_account F store accountId kw = .ok store' →
      storeTypedB store' = true) ∧
    (∀ (F : Fernet) (store : List Account) (now : Nat)
        (file : Option (List (String × JVal))) (accountId : String)
        (acc : Account),
      storeTypedB store = true →
      (store.map (fun x => x.id)).Nodup →
      findAccount store accountId = some acc →
      acc.authType = "oauth" →
      storeTypedB (capture_oauth_tokens F store now file accountId).1 = true) ∧
    (∀ (F : Fernet) (store : List Account)
        (entries : List (String × ImportEntry)),
      storeTypedB store = true →
      (∀ p ∈ entries,
        (((p : String × ImportEntry).2.authType = "api_key" →
          p.2.accessToken = "" ∧ p.2.refreshToken = "") ∧
         (p.2.authType = "oauth" → p.2.apiKey = ""))) →
      storeTypedB (import_accounts F store entries).1 = true) :=
  ⟨fun F store now net accountId h hnd =>
      storeTypedB_refresh F store now net accountId h hnd,
   fun F store accountId nm authType apiKey accessToken refreshToken expiresAt
       store' h hc1 hc2 hok =>
      storeTypedB_add F store accountId nm authType apiKey accessToken
        refreshToken expiresAt store' h hc1 hc2 hok,
   fun F store accountId kw acc store' h hnd hfind hkwT hk1 hk2 hok =>
      storeTypedB_update_account F store accountId kw acc store' h hnd hfind
        hkwT hk1 hk2 hok,
   fun F store now file accountId acc h hnd hfind ht =>
      storeTypedB_capture F store now file accountId acc h hnd hfind ht,
   fun F store entries h hents => storeTypedB_import F entries store h hents⟩

/-- Witness for the amended C6: a successful refresh of a concrete OAuth
account keeps the invariant true. -/
theorem vault_ops_preserve_type_separation_witness :
    storeTypedB (refresh_oauth_token testFernet [oauthAccount "GA1" "GR1" 1000]
        5000
        (constNet (.http 200 ""
          { accessToken := "A2", refreshToken := "R2", expiresIn := 3600 }))
        "a1").1 = true :=
  vault_ops_preserve_type_separation.1 testFernet [oauthAccount "GA1" "GR1" 1000]
    5000
    (constNet (.http 200 ""
      { accessToken := "A2", refreshToken := "R2", expiresIn := 3600 }))
    "a1" (by decide) (by decide)
